import Mathlib

/-!
Shallow embedding of `src/src/LocationWeatherCard.jsx` (GPS-UI).

The component holds six pieces of React state (`isSupported`, `status`,
`error`, `areaName`, `tempC`, `updatedAt`); they are embedded as the
structure `CardState`.  The pure helper `buildShortAreaName` and the two
fetch helpers `reverseGeocodeArea` / `fetchCurrentTempC` are embedded as
Lean functions over decoded response data; network effects are made
explicit as values of `NetRequest`.  JavaScript string truthiness
(`undefined` and the empty string are falsy) is embedded by `truthyB`
over `Option String`, and the JS `||` operator over such values by
`jsOr`.  Weather payloads are embedded as `JsValue`, a model of parsed
JSON in which every number is a finite rational, exactly as JSON.parse
can only produce finite numbers.
-/

/-- JS truthiness for a string-or-undefined value: `undefined` (`none`)
and the empty string are falsy, every other string is truthy. -/
def truthyB (o : Option String) : Bool :=
  o.getD "" != ""

/-- The JS `||` operator restricted to string-or-undefined values:
returns the left operand when it is truthy, otherwise the right one. -/
def jsOr (a b : Option String) : Option String :=
  if truthyB a then a else b

/-- A `||` chain `x1 || x2 || ... || d` written over a list of leading
operands and a final default operand. -/
def jsOrChain : List (Option String) → Option String → Option String
  | [], d => d
  | o :: rest, d => jsOr o (jsOrChain rest d)

/-- The Nominatim `address` object: optional locality-name strings.
Source: the fields read by `buildShortAreaName`,
`LocationWeatherCard.jsx` lines 28-45. -/
structure AddressAttributes where
  neighbourhood : Option String := none
  quarter : Option String := none
  suburb : Option String := none
  city_district : Option String := none
  borough : Option String := none
  town : Option String := none
  village : Option String := none
  city : Option String := none
  county : Option String := none
  state : Option String := none
deriving DecidableEq

/-- The `local` constant of `buildShortAreaName`: the `||` chain over
neighbourhood, quarter, suburb, city_district, borough, town, village,
city, county, state.  Source lines 28-38. -/
def localField (a : AddressAttributes) : Option String :=
  jsOr a.neighbourhood (jsOr a.quarter (jsOr a.suburb (jsOr a.city_district
    (jsOr a.borough (jsOr a.town (jsOr a.village (jsOr a.city
      (jsOr a.county a.state))))))))

/-- The `cityLike` constant of `buildShortAreaName`: the `||` chain over
city, town, village, county, state.  Source lines 40-45. -/
def cityLikeField (a : AddressAttributes) : Option String :=
  jsOr a.city (jsOr a.town (jsOr a.village (jsOr a.county a.state)))

/-- The priority order of the `local` chain, as a list. -/
def localOrder (a : AddressAttributes) : List (Option String) :=
  [a.neighbourhood, a.quarter, a.suburb, a.city_district, a.borough,
   a.town, a.village, a.city, a.county, a.state]

/-- The priority order of the `cityLike` chain, as a list. -/
def cityOrder (a : AddressAttributes) : List (Option String) :=
  [a.city, a.town, a.village, a.county, a.state]

/-- The first truthy (present and non-empty) value of a list of
string-or-undefined values, or `none` when there is none.  This is the
specification-side reading of a `||` fallback chain. -/
def firstNonEmpty : List (Option String) → Option String
  | [] => none
  | o :: rest => if truthyB o then o else firstNonEmpty rest

/-- `buildShortAreaName` from `LocationWeatherCard.jsx` lines 24-50.
The argument is the `address` property of the decoded geocoding
response; `none` embeds a missing or null address object (the guard
`if (!address) return "Unknown area"`). -/
def buildShortAreaName (address : Option AddressAttributes) : String :=
  match address with
  | none => "Unknown area"
  | some a =>
    if truthyB (localField a) && truthyB (cityLikeField a)
        && localField a != cityLikeField a then
      (localField a).getD "" ++ ", " ++ (cityLikeField a).getD ""
    else if truthyB (localField a) then (localField a).getD ""
    else if truthyB (cityLikeField a) then (cityLikeField a).getD ""
    else "Unknown area"

/-- Parsed JSON values.  JSON.parse yields only finite numbers, so the
numeric case carries a rational. -/
inductive JsValue where
  | null
  | bool (b : Bool)
  | num (q : Rat)
  | str (s : String)
  | arr (elems : List JsValue)
  | obj (fields : List (String × JsValue))

/-- Property lookup in a JSON object field list. -/
def lookupField : List (String × JsValue) → String → Option JsValue
  | [], _ => none
  | (k, v) :: rest, key => if k == key then some v else lookupField rest key

/-- JS optional-chaining property access `v?.key`: `undefined` on
`undefined`/`null`/non-object receivers, field lookup on objects. -/
def jsGetField (v : Option JsValue) (key : String) : Option JsValue :=
  match v with
  | some (JsValue.obj fields) => lookupField fields key
  | _ => none

/-- The fetch-API `res.ok` flag: status in the inclusive range 200-299. -/
def respOk (status : Nat) : Bool :=
  decide (200 ≤ status ∧ status ≤ 299)

/-- `reverseGeocodeArea` from lines 52-68, applied to a received
response: on a non-ok status it throws `Area lookup failed (status)`,
otherwise it resolves the decoded `data.address` object (`none` when
the response has no address object) through `buildShortAreaName`. -/
def reverseGeocodeArea (status : Nat) (address : Option AddressAttributes) :
    Except String String :=
  if respOk status then Except.ok (buildShortAreaName address)
  else Except.error ("Area lookup failed (" ++ toString status ++ ")")

/-- `fetchCurrentTempC` from lines 70-88, applied to a received
response: on a non-ok status it throws `Weather fetch failed (status)`;
otherwise it reads `data?.current?.temperature_2m` and throws
`Weather data missing temperature.` unless that value is a number. -/
def fetchCurrentTempC (status : Nat) (body : JsValue) : Except String Rat :=
  if respOk status then
    match jsGetField (jsGetField (some body) "current") "temperature_2m" with
    | some (JsValue.num t) => Except.ok t
    | _ => Except.error "Weather data missing temperature."
  else Except.error ("Weather fetch failed (" ++ toString status ++ ")")

/-- The `status` state variable: `idle | requesting | success | error`. -/
inductive CardStatus where
  | idle
  | requesting
  | success
  | error
deriving DecidableEq

/-- The six React state variables of `LocationWeatherCard`. -/
structure CardState where
  isSupported : Bool
  status : CardStatus
  error : Option String
  areaName : String
  tempC : Option Rat
  updatedAt : Option Nat
deriving DecidableEq

/-- The `useState` initial values, lines 4-13. -/
def initialState : CardState :=
  { isSupported := true
    status := CardStatus.idle
    error := none
    areaName := "—"
    tempC := none
    updatedAt := none }

/-- The fixed capability message set by the mount effect, line 19. -/
def unsupportedMessage : String :=
  "Geolocation is not supported in this browser."

/-- The mount effect, lines 15-21: when the geolocation capability is
absent it records the unsupported flag and moves to the error state
with the fixed capability message; otherwise it changes nothing. -/
def mountEffect (geolocationAvailable : Bool) (s : CardState) : CardState :=
  if geolocationAvailable then s
  else { s with
          isSupported := false
          status := CardStatus.error
          error := some unsupportedMessage }

/-- The options object passed to `getCurrentPosition`, lines 122-126. -/
structure GeoOptions where
  enableHighAccuracy : Bool
  timeout : Nat
  maximumAge : Nat
deriving DecidableEq

/-- The network-facing effects the component can issue: one geolocation
position request and the two HTTP lookups. -/
inductive NetRequest where
  | positionRequest (options : GeoOptions)
  | areaLookup (lat lng : Rat)
  | weatherLookup (lat lng : Rat)
deriving DecidableEq

/-- The concrete options value of lines 122-126. -/
def geoPositionOptions : GeoOptions :=
  { enableHighAccuracy := true, timeout := 12000, maximumAge := 0 }

/-- The synchronous prefix of `getLocationAndWeather`, lines 91-95:
status becomes requesting and every previous success or error payload
is cleared to its initial value. -/
def startCycle (s : CardState) : CardState :=
  { s with
      status := CardStatus.requesting
      error := none
      areaName := "—"
      tempC := none
      updatedAt := none }

/-- `getLocationAndWeather`, lines 90-127, as observed synchronously:
it resets the state through `startCycle` and issues exactly one
position request carrying `geoPositionOptions`.  The asynchronous
callbacks are embedded separately as `onPositionError`,
`positionSuccessRequests` and `settleLookups`. -/
def getLocationAndWeather (s : CardState) : CardState × List NetRequest :=
  (startCycle s, [NetRequest.positionRequest geoPositionOptions])

/-- Invoking the lookup through the widget: the only caller of
`getLocationAndWeather` is the button, lines 180-192, which is disabled
while requesting or when the capability is unsupported; a disabled
button fires no click handler, so such a click is a no-op issuing no
request. -/
def clickBeginLookup (s : CardState) : CardState × List NetRequest :=
  if s.status = CardStatus.requesting ∨ s.isSupported = false then (s, [])
  else getLocationAndWeather s

/-- The position error callback, lines 118-121: error state with the
provider message and numeric code combined. -/
def onPositionError (s : CardState) (message : String) (code : Nat) :
    CardState :=
  { s with
      status := CardStatus.error
      error := some (message ++ " (code " ++ toString code ++ ")") }

/-- The two HTTP lookups issued concurrently by the position success
callback, lines 103-106. -/
def positionSuccessRequests (lat lng : Rat) : List NetRequest :=
  [NetRequest.areaLookup lat lng, NetRequest.weatherLookup lat lng]

/-- The join of the two lookups, lines 102-116 (`Promise.all` with
`try`/`catch`): both results in hand, joint success stores the area
label, the temperature, the capture timestamp and the success status;
a failure of either lookup stores only the error status and message.
When both fail, `Promise.all` surfaces whichever rejection settles
first; the embedding surfaces the area message in that case. -/
def settleLookups (s : CardState) (area : Except String String)
    (temp : Except String Rat) (now : Nat) : CardState :=
  match area, temp with
  | Except.ok a, Except.ok t =>
      { s with
          areaName := a
          tempC := some t
          updatedAt := some now
          status := CardStatus.success }
  | Except.error e, _ =>
      { s with status := CardStatus.error, error := some e }
  | Except.ok _, Except.error e =>
      { s with status := CardStatus.error, error := some e }

/-- JS `Number.prototype.toFixed(1)`: sign of the argument, then the
absolute value rounded to tenths with ties away from zero, printed as
integer part, a dot, and one digit. -/
def toFixed1 (q : Rat) : String :=
  let sgn := if q < 0 then "-" else ""
  let n := (⌊|q| * 10 + 1/2⌋).toNat
  sgn ++ toString (n / 10) ++ "." ++ toString (n % 10)

/-- The derived display text `tempText`, lines 141-142. -/
def tempText (s : CardState) : String :=
  match s.tempC with
  | some t => toFixed1 t ++ "°C"
  | none => if s.status = CardStatus.requesting then "…" else "—"

/-- The address object of the priority-order example: suburb X, town Y,
city Z. -/
def addrXYZ : AddressAttributes :=
  { suburb := some "X", town := some "Y", city := some "Z" }

/-- The dedup example address: city Berlin, state Berlin. -/
def addrBerlin : AddressAttributes :=
  { city := some "Berlin", state := some "Berlin" }

/-- The two-part label example address. -/
def addrMarais : AddressAttributes :=
  { neighbourhood := some "Le Marais", city := some "Paris" }

/-- The empty address object: every locality field absent. -/
def addrEmpty : AddressAttributes := {}

/-- A truthy string-or-undefined value is a present non-empty string. -/
theorem truthyB_iff (o : Option String) : truthyB o = true ↔ o.getD "" ≠ "" := by
  simp [truthyB]

/-- A string with ", " spliced into the middle is never empty. -/
theorem append_comma_ne_empty (x y : String) : x ++ ", " ++ y ≠ "" := by
  intro h
  have h1 := congrArg String.length h
  rw [String.length_append, String.length_append] at h1
  have h2 : (", ").length = 2 := rfl
  have h3 : ("").length = 0 := rfl
  omega

/-- A `||` chain realises the first truthy operand: when the operand
list (leading operands followed by the final default) has a first
truthy value, the chain returns it. -/
theorem jsOrChain_of_firstNonEmpty :
    ∀ (l : List (Option String)) (d : Option String) (v : String),
      firstNonEmpty (l ++ [d]) = some v → jsOrChain l d = some v := by
  intro l
  induction l with
  | nil =>
    intro d v h
    simp only [List.nil_append, firstNonEmpty] at h
    by_cases hd : truthyB d
    · rw [if_pos hd] at h
      exact h
    · rw [if_neg hd] at h
      exact absurd h (by simp [firstNonEmpty])
  | cons o rest ih =>
    intro d v h
    simp only [List.cons_append, firstNonEmpty] at h
    by_cases ho : truthyB o
    · rw [if_pos ho] at h
      subst h
      simp [jsOrChain, jsOr, ho]
    · rw [if_neg ho] at h
      simp only [jsOrChain, jsOr, ho, if_neg]
      simpa using ih d v h

/-- The nested `||` expression defining `local` is the chain over the
first nine fields with `state` as final operand. -/
theorem localField_chain (a : AddressAttributes) :
    localField a = jsOrChain [a.neighbourhood, a.quarter, a.suburb,
      a.city_district, a.borough, a.town, a.village, a.city, a.county]
      a.state := rfl

/-- The nested `||` expression defining `cityLike` is the chain over
city, town, village, county with `state` as final operand. -/
theorem cityLikeField_chain (a : AddressAttributes) :
    cityLikeField a = jsOrChain [a.city, a.town, a.village, a.county]
      a.state := rfl

/-- C3: for every AddressAttributes input, the `local` constant of
`buildShortAreaName` is the first non-empty value in the exact order
neighbourhood, quarter, suburb, city_district, borough, town, village,
city, county, state, and the `cityLike` constant is the first non-empty
value in the exact order city, town, village, county, state; for the
input with suburb X, town Y, city Z this yields local X and
cityLike Z. -/
theorem claim_C3_priority_orders :
    (∀ (a : AddressAttributes) (v : String),
       firstNonEmpty (localOrder a) = some v → localField a = some v) ∧
    (∀ (a : AddressAttributes) (v : String),
       firstNonEmpty (cityOrder a) = some v → cityLikeField a = some v) ∧
    localField addrXYZ = some "X" ∧ cityLikeField addrXYZ = some "Z" := by
  refine ⟨?_, ?_, rfl, rfl⟩
  · intro a v h
    rw [localField_chain]
    exact jsOrChain_of_firstNonEmpty _ _ _ h
  · intro a v h
    rw [cityLikeField_chain]
    exact jsOrChain_of_firstNonEmpty _ _ _ h

/-- C3 witness: the priority orders evaluated on the concrete address
with suburb X, town Y, city Z. -/
theorem claim_C3_witness :
    localField addrXYZ = some "X" ∧ cityLikeField addrXYZ = some "Z" :=
  ⟨claim_C3_priority_orders.1 addrXYZ "X" rfl,
   claim_C3_priority_orders.2.1 addrXYZ "Z" rfl⟩

/-- C4: when both `local` and `cityLike` are non-empty and differ as
strings, `buildShortAreaName` returns `local`, a comma and space, and
`cityLike`; when they are equal, or only one is non-empty, it returns
the single non-empty value with `local` taking precedence; in
particular city Berlin with state Berlin yields Berlin, and
neighbourhood Le Marais with city Paris yields the two-part label. -/
theorem claim_C4_combine_and_dedup :
    (∀ (a : AddressAttributes) (l c : String),
       localField a = some l → cityLikeField a = some c →
       l ≠ "" → c ≠ "" → l ≠ c →
       buildShortAreaName (some a) = l ++ ", " ++ c) ∧
    (∀ (a : AddressAttributes) (l c : String),
       localField a = some l → cityLikeField a = some c →
       l ≠ "" → l = c →
       buildShortAreaName (some a) = l) ∧
    (∀ (a : AddressAttributes) (l : String),
       localField a = some l → l ≠ "" →
       truthyB (cityLikeField a) = false →
       buildShortAreaName (some a) = l) ∧
    (∀ (a : AddressAttributes) (c : String),
       truthyB (localField a) = false →
       cityLikeField a = some c → c ≠ "" →
       buildShortAreaName (some a) = c) ∧
    buildShortAreaName (some addrBerlin) = "Berlin" ∧
    buildShortAreaName (some addrMarais) = "Le Marais, Paris" := by
  refine ⟨?_, ?_, ?_, ?_, rfl, rfl⟩
  · intro a l c hl hc hlne hcne hne
    rw [buildShortAreaName, hl, hc, if_pos]
    · rfl
    · simp [truthyB, hlne, hcne, hne]
  · intro a l c hl hc hlne heq
    rw [buildShortAreaName, hl, hc, if_neg, if_pos]
    · rfl
    · simp [truthyB, hlne]
    · simp [heq]
  · intro a l hl hlne hcf
    rw [buildShortAreaName, hl, if_neg, if_pos]
    · rfl
    · simp [truthyB, hlne]
    · simp [hcf]
  · intro a c hlf hc hcne
    rw [buildShortAreaName, hc, if_neg, if_neg, if_pos]
    · rfl
    · simp [truthyB, hcne]
    · simp [hlf]
    · simp [hlf]

/-- C4 witness: the combine rule and the dedup rule evaluated on the
concrete Marais and Berlin addresses. -/
theorem claim_C4_witness :
    buildShortAreaName (some addrMarais) = "Le Marais" ++ ", " ++ "Paris" ∧
    buildShortAreaName (some addrBerlin) = "Berlin" := by
  constructor
  · exact claim_C4_combine_and_dedup.1 addrMarais "Le Marais" "Paris"
      rfl rfl (by decide) (by decide) (by decide)
  · exact claim_C4_combine_and_dedup.2.1 addrBerlin "Berlin" "Berlin"
      rfl rfl (by decide) rfl

/-- C5: for every AddressAttributes input, including the address object
with no populated field, `buildShortAreaName` returns a non-empty
string, and the empty address object yields the sentinel. -/
theorem claim_C5_always_nonempty :
    (∀ address : Option AddressAttributes, buildShortAreaName address ≠ "") ∧
    buildShortAreaName (some addrEmpty) = "Unknown area" := by
  constructor
  · intro address
    match address with
    | none => decide
    | some a =>
      rw [buildShortAreaName]
      split_ifs with h1 h2 h3
      · exact append_comma_ne_empty _ _
      · exact (truthyB_iff _).mp h2
      · exact (truthyB_iff _).mp h3
      · decide
  · rfl

/-- C10: `buildShortAreaName` is total over an absent address object:
a null or missing address yields the sentinel rather than a failure,
so a 2xx geocoding response without an address field still resolves to
a label. -/
theorem claim_C10_absent_address_total :
    buildShortAreaName none = "Unknown area" ∧
    reverseGeocodeArea 200 none = Except.ok "Unknown area" :=
  ⟨rfl, rfl⟩

/-- C1: when the geolocation capability is unavailable, invoking the
lookup yields the error state with the fixed capability message and
issues zero network requests: the mount effect already produced that
error state, and a lookup invocation on an unsupported widget is a
no-op that issues no request, hence no position request and no area or
weather lookup. -/
theorem claim_C1_unsupported_immediate_error :
    (∀ s : CardState, s.isSupported = false → clickBeginLookup s = (s, [])) ∧
    (mountEffect false initialState).isSupported = false ∧
    (mountEffect false initialState).status = CardStatus.error ∧
    (mountEffect false initialState).error = some unsupportedMessage ∧
    clickBeginLookup (mountEffect false initialState) =
      (mountEffect false initialState, []) := by
  refine ⟨?_, rfl, rfl, rfl, rfl⟩
  intro s h
  rw [clickBeginLookup, if_pos]
  exact Or.inr h

/-- C1 witness: the no-op evaluated on the state produced by mounting
the widget in an environment without the geolocation capability. -/
theorem claim_C1_witness :
    clickBeginLookup (mountEffect false initialState) =
      (mountEffect false initialState, []) :=
  claim_C1_unsupported_immediate_error.1 (mountEffect false initialState) rfl

/-- C2: after position acquisition, the cycle joins the two lookups: it
reaches the success state carrying the resolved area label, the
temperature reading and a non-null capture timestamp exactly when both
lookups succeed; when either lookup fails the cycle reaches the error
state with no partial result, the area label, temperature and
timestamp all left at their cleared cycle-start values. -/
theorem claim_C2_join_no_partial_success :
    ∀ (s : CardState) (area : Except String String)
      (temp : Except String Rat) (now : Nat),
    ((settleLookups (startCycle s) area temp now).status = CardStatus.success ↔
       (∃ a, area = Except.ok a) ∧ (∃ t, temp = Except.ok t)) ∧
    (∀ (a : String) (t : Rat), area = Except.ok a → temp = Except.ok t →
       (settleLookups (startCycle s) area temp now).areaName = a ∧
       (settleLookups (startCycle s) area temp now).tempC = some t ∧
       (settleLookups (startCycle s) area temp now).updatedAt = some now) ∧
    (((∃ e, area = Except.error e) ∨ (∃ e, temp = Except.error e)) →
       (settleLookups (startCycle s) area temp now).status = CardStatus.error ∧
       (settleLookups (startCycle s) area temp now).areaName = "—" ∧
       (settleLookups (startCycle s) area temp now).tempC = none ∧
       (settleLookups (startCycle s) area temp now).updatedAt = none) := by
  intro s area temp now
  cases area <;> cases temp <;> simp [settleLookups, startCycle]

/-- C2 witness: the join evaluated on one jointly successful cycle and
one cycle whose area lookup failed while the weather lookup succeeded,
the latter discarding the resolved temperature. -/
theorem claim_C2_witness :
    (settleLookups (startCycle initialState)
       (Except.ok "Mitte, Berlin") (Except.ok 5) 1700000000).status =
      CardStatus.success ∧
    (settleLookups (startCycle initialState)
       (Except.ok "Mitte, Berlin") (Except.ok 5) 1700000000).areaName =
      "Mitte, Berlin" ∧
    (settleLookups (startCycle initialState)
       (Except.error "Area lookup failed (500)") (Except.ok 5)
       1700000000).status = CardStatus.error ∧
    (settleLookups (startCycle initialState)
       (Except.error "Area lookup failed (500)") (Except.ok 5)
       1700000000).tempC = none := by
  have h1 := claim_C2_join_no_partial_success initialState
    (Except.ok "Mitte, Berlin") (Except.ok 5) 1700000000
  have h2 := claim_C2_join_no_partial_success initialState
    (Except.error "Area lookup failed (500)") (Except.ok 5) 1700000000
  exact ⟨h1.1.mpr ⟨⟨_, rfl⟩, ⟨_, rfl⟩⟩, (h1.2.1 _ _ rfl rfl).1,
    (h2.2.2 (Or.inl ⟨_, rfl⟩)).1, (h2.2.2 (Or.inl ⟨_, rfl⟩)).2.2.1⟩

/-- C6: when the weather payload misses the current temperature field
or holds a non-numeric value there, the lookup fails with the explicit
missing-temperature error instead of a fallback value, an ok result
always stems from a numeric field, and a cycle that settles in the
success state carries exactly the numeric reading of its successful
weather lookup. -/
theorem claim_C6_missing_temperature_is_error :
    ∀ (status : Nat) (body : JsValue),
    (∀ q : Rat, fetchCurrentTempC status body = Except.ok q →
       jsGetField (jsGetField (some body) "current") "temperature_2m" =
         some (JsValue.num q)) ∧
    (respOk status = true →
      (∀ q : Rat,
         jsGetField (jsGetField (some body) "current") "temperature_2m" ≠
           some (JsValue.num q)) →
      fetchCurrentTempC status body =
        Except.error "Weather data missing temperature.") ∧
    (∀ (s : CardState) (area : Except String String)
       (temp : Except String Rat) (now : Nat),
       (settleLookups s area temp now).status = CardStatus.success →
       ∃ t : Rat, temp = Except.ok t ∧
         (settleLookups s area temp now).tempC = some t) := by
  intro status body
  refine ⟨?_, ?_, ?_⟩
  · intro q h
    rw [fetchCurrentTempC] at h
    split at h
    · split at h
      · next heq =>
          exact heq.trans
            (congrArg (fun x => some (JsValue.num x)) (Except.ok.inj h))
      · exact absurd h (by simp)
    · exact absurd h (by simp)
  · intro hok hne
    rw [fetchCurrentTempC, if_pos (by simp [hok])]
    split
    · next t heq => exact absurd heq (hne t)
    · rfl
  · intro s area temp now h
    cases area <;> cases temp <;> simp [settleLookups] at h ⊢

/-- C6 witness: a 200 response whose body is JSON null has no numeric
temperature path, so the lookup fails with the explicit message. -/
theorem claim_C6_witness :
    fetchCurrentTempC 200 JsValue.null =
      Except.error "Weather data missing temperature." :=
  (claim_C6_missing_temperature_is_error 200 JsValue.null).2.1 rfl
    (fun _ hq => Option.noConfusion hq)

/-- C7: every invocation of `getLocationAndWeather`, from any prior
state including an error state, moves the status to requesting and
clears the previous error message, area label, temperature and
timestamp before any new result arrives, and requests the current
position with the high-accuracy hint enabled, a 12000 ms timeout and
maximum age zero. -/
theorem claim_C7_reset_and_position_options :
    ∀ s : CardState,
    (getLocationAndWeather s).1.status = CardStatus.requesting ∧
    (getLocationAndWeather s).1.error = none ∧
    (getLocationAndWeather s).1.areaName = "—" ∧
    (getLocationAndWeather s).1.tempC = none ∧
    (getLocationAndWeather s).1.updatedAt = none ∧
    (getLocationAndWeather s).2 =
      [NetRequest.positionRequest
        { enableHighAccuracy := true, timeout := 12000, maximumAge := 0 }] :=
  fun _ => ⟨rfl, rfl, rfl, rfl, rfl, rfl⟩

/-- C8: failures carry distinct messages: a non-2xx response yields an
error naming the failing lookup together with the numeric status code,
the two lookup messages can never coincide, and a position-acquisition
failure yields the error state with the provider message and its
numeric code combined. -/
theorem claim_C8_distinct_error_messages :
    (∀ (status : Nat) (address : Option AddressAttributes) (body : JsValue),
       respOk status = false →
       reverseGeocodeArea status address =
         Except.error ("Area lookup failed (" ++ toString status ++ ")") ∧
       fetchCurrentTempC status body =
         Except.error ("Weather fetch failed (" ++ toString status ++ ")")) ∧
    (∀ st1 st2 : Nat,
       ("Area lookup failed (" ++ toString st1 ++ ")") ≠
         ("Weather fetch failed (" ++ toString st2 ++ ")")) ∧
    (∀ (s : CardState) (message : String) (code : Nat),
       (onPositionError s message code).status = CardStatus.error ∧
       (onPositionError s message code).error =
         some (message ++ " (code " ++ toString code ++ ")")) := by
  refine ⟨?_, ?_, fun s message code => ⟨rfl, rfl⟩⟩
  · intro status address body h
    constructor
    · rw [reverseGeocodeArea, if_neg (by simp [h])]
    · rw [fetchCurrentTempC, if_neg (by simp [h])]
  · intro st1 st2 h
    have h1 := congrArg (fun s => s.data.head?) h
    simp [String.data_append] at h1

/-- C8 witness: the three failure shapes evaluated on a 500 area
response, a 404 weather response, and a timeout position error. -/
theorem claim_C8_witness :
    reverseGeocodeArea 500 none = Except.error "Area lookup failed (500)" ∧
    fetchCurrentTempC 404 JsValue.null =
      Except.error "Weather fetch failed (404)" ∧
    (onPositionError initialState "Timeout expired" 3).error =
      some "Timeout expired (code 3)" := by
  have h1 := claim_C8_distinct_error_messages.1 500 none JsValue.null rfl
  have h2 := claim_C8_distinct_error_messages.1 404 none JsValue.null rfl
  have h3 := claim_C8_distinct_error_messages.2.2 initialState
    "Timeout expired" 3
  exact ⟨h1.1, h2.2, h3.2⟩

/-- Printing a digit always yields a one-character string. -/
theorem toString_mod_ten_length (n : Nat) :
    (toString (n % 10)).length = 1 := by
  have h : n % 10 < 10 := Nat.mod_lt _ (by norm_num)
  interval_cases h2 : n % 10 <;> decide

/-- C9: the derived temperature display text is the temperature
formatted to exactly one decimal place (a dot followed by a single
digit) with the degrees-Celsius suffix whenever the stored temperature
is numeric; otherwise it is the placeholder glyph while requesting and
the em-dash in every other state. -/
theorem claim_C9_temperature_display_text :
    ∀ s : CardState,
    (∀ t : Rat, s.tempC = some t →
       tempText s = toFixed1 t ++ "°C" ∧
       ∃ (p : String) (d : Nat), d < 10 ∧
         toFixed1 t = p ++ "." ++ toString d ∧ (toString d).length = 1) ∧
    (s.tempC = none → s.status = CardStatus.requesting → tempText s = "…") ∧
    (s.tempC = none → s.status ≠ CardStatus.requesting → tempText s = "—") := by
  intro s
  refine ⟨?_, ?_, ?_⟩
  · intro t h
    constructor
    · simp [tempText, h]
    · exact ⟨(if t < 0 then "-" else "") ++
          toString ((⌊|t| * 10 + 1/2⌋).toNat / 10),
        (⌊|t| * 10 + 1/2⌋).toNat % 10,
        Nat.mod_lt _ (by norm_num), rfl, toString_mod_ten_length _⟩
  · intro h hs
    simp [tempText, h, hs]
  · intro h hs
    simp [tempText, h, hs]

/-- C9 witness: the display text evaluated on a success state holding
21.7 degrees and on a requesting state with no reading. -/
theorem claim_C9_witness :
    tempText { initialState with
                 status := CardStatus.success, tempC := some (217/10) } =
      "21.7°C" ∧
    tempText { initialState with status := CardStatus.requesting } = "…" := by
  constructor
  · have h := (claim_C9_temperature_display_text
      { initialState with
          status := CardStatus.success, tempC := some (217/10) }).1
      (217/10) rfl
    rw [h.1]
    have hf : ⌊|(217:Rat)/10| * 10 + 1/2⌋ = 217 := by
      rw [abs_of_nonneg (by norm_num)]
      norm_num
    rw [toFixed1]
    rw [hf]
    norm_num
    decide
  · exact (claim_C9_temperature_display_text
      { initialState with status := CardStatus.requesting }).2.1 rfl rfl
